import Mathlib

/-!
Verification of the OpenAPI-to-Robot-Framework test generator.

Shallow embedding of `src/s2rdd.py` (single-file Python program).  The
program parses a resolved OpenAPI tree (`parse_openapi_spec`), optionally
mirrors each operation into Jira (`create_jira_tickets`), and renders an
Excel matrix (`write_excel_header`, `write_excel_test_case_data`) plus two
Robot Framework text files (`write_robot_framework_includes_file`,
`write_robot_framework_test_case_file`), orchestrated by
`transform_openapi_to_robot`.

Python-specific behaviour is modelled explicitly:
* exceptions that escape a function are `Except.error` values of `PyError`;
* Python dicts are association lists with insert-or-overwrite-in-place
  semantics (`dictInsert`), preserving iteration order;
* truthiness of optional lists/strings is modelled by dedicated helpers;
* `int(...)` coercion of a string is `pyInt`;
* the three fixed regular expressions of the source are implemented as
  character-level scanners with the exact semantics of Python `re` on the
  patterns in question (documented at each definition).
-/

/-- Exceptions that the Python source can raise past a function boundary. -/
inductive PyError where
  /-- `raise ValueError(...)` in `parse_openapi_spec` (line 561) when an
  operation has no `operationId`. -/
  | valueErrorNoOperationId
  /-- `UnboundLocalError` at the record construction (line 601) when
  `expected_status_code` was never assigned. -/
  | unboundLocalExpectedStatusCode
  /-- `AttributeError` in `create_jira_tickets` (line 361) when `.append`
  is called on a `str`-valued `tags` entry. -/
  | attributeErrorStrAppend
deriving DecidableEq, Repr

/-- The `tags` entry of a service record: `parse_openapi_spec` stores the
operation's tag list when present and the empty *string* `""` otherwise
(lines 542-545), so the value is either a Python `list` or a `str`. -/
inductive PyTags where
  | list : List String → PyTags
  | str : String → PyTags
deriving DecidableEq, Repr

/-- `expected_status_code` is either a coerced integer or the empty string
(lines 584-591). -/
inductive EscVal where
  | int : Int → EscVal
  | str : String → EscVal
deriving DecidableEq, Repr

/-- The fields of `properties[name]` that the program consumes:
`enum` (line 820) and `example` (line 827). -/
structure PropertySpec where
  enum : Option (List String) := none
  exampleVal : Option String := none
deriving DecidableEq, Repr

/-- The `schema` object under `requestBody.content["application/json"]`:
only `required` and `properties` are consumed (lines 570-573). -/
structure SchemaSpec where
  required : Option (List String) := none
  properties : Option (List (String × PropertySpec)) := none
deriving DecidableEq, Repr

/-- The `application/json` media type object: `schema` plus a sibling
`example` (lines 568-575). -/
structure JsonMediaType where
  schema : Option SchemaSpec := none
  exampleVal : Option String := none
deriving DecidableEq, Repr

/-- The `content` map of a request body; the source only ever looks up the
`application/json` key (line 567), so other media types are not modelled. -/
structure ContentSpec where
  applicationJson : Option JsonMediaType := none
deriving DecidableEq, Repr

/-- A `requestBody` object (line 564). -/
structure RequestBodySpec where
  content : Option ContentSpec := none
deriving DecidableEq, Repr

/-- One operation (HTTP-method entry) of the resolved OpenAPI tree, with
exactly the fields the source reads.  `responses` keeps only the keys of
the responses map, in iteration order, since the source never reads the
values (line 584). -/
structure Operation where
  operationId : Option String := none
  tags : Option (List String) := none
  summary : Option String := none
  description : Option String := none
  requestBody : Option RequestBodySpec := none
  responses : Option (List String) := none
deriving DecidableEq, Repr

/-- One entry of the `servers` list (line 895: only `url` is read). -/
structure Server where
  url : String
deriving DecidableEq, Repr

/-- The resolved OpenAPI tree as walked by `parse_openapi_spec`: an
optional `servers` list and the `paths` map (path → method → operation),
both in iteration order. -/
structure OpenAPISpec where
  servers : Option (List Server) := none
  paths : List (String × List (String × Operation)) := []
deriving DecidableEq, Repr

/-- `service_keys = (operationid, operation, path)` (line 593). -/
abbrev ServiceKey := String × String × String

/-- The per-operation record stored in `_service_dictionary`
(lines 594-602). -/
structure ServiceRecord where
  properties : Option (List (String × PropertySpec))
  required : Option (List String)
  exampleVal : Option String
  tags : PyTags
  summary : String
  description : String
  expected_status_code : EscVal
deriving DecidableEq, Repr

/-- Python dict assignment `d[k] = v`: overwrite in place if the key is
present (keeping its position), append otherwise. -/
def dictInsert {V : Type} : List (ServiceKey × V) → ServiceKey → V → List (ServiceKey × V)
  | [], k, v => [(k, v)]
  | (k', v') :: rest, k, v =>
    if k' = k then (k, v) :: rest else (k', v') :: dictInsert rest k v

/-- Python dict lookup `d[k]`. -/
def dictLookup {V : Type} : List (ServiceKey × V) → ServiceKey → Option V
  | [], _ => none
  | (k', v) :: rest, k => if k' = k then some v else dictLookup rest k

/-- Python `set.add`: the running deduplication set of variable names
(line 607), modelled as an insertion-ordered duplicate-free list. -/
def addUnique (l : List String) (x : String) : List String :=
  if x ∈ l then l else l ++ [x]

/-- Truthiness of an optional list (`if properties:`, `if required:`,
`if enum_value:`): `None` and the empty list are falsy. -/
def pyTruthyList {α : Type} : Option (List α) → Bool
  | none => false
  | some l => !l.isEmpty

/-- Digit run of a Python integer literal: digits with single underscores
allowed between digits (`int("1_0") = 10`, `int("1__0")` and `int("1_")`
raise `ValueError`). -/
def pyIntDigits : List Char → Nat → Option Nat
  | [], acc => some acc
  | '_' :: c :: rest, acc =>
    if c.isDigit then pyIntDigits rest (acc * 10 + (c.toNat - 48)) else none
  | c :: rest, acc =>
    if c.isDigit then pyIntDigits rest (acc * 10 + (c.toNat - 48)) else none

/-- The whitespace strip performed by Python `int(...)` on its string
argument: leading and trailing whitespace is ignored. -/
def pyStrip (l : List Char) : List Char :=
  ((l.dropWhile Char.isWhitespace).reverse.dropWhile Char.isWhitespace).reverse

/-- Python `int(s)` on a string: strip surrounding whitespace, optional
sign, then a non-empty digit run; `none` models a `ValueError`. -/
def pyInt (s : String) : Option Int :=
  match pyStrip s.data with
  | '+' :: c :: rest =>
    if c.isDigit then (pyIntDigits rest (c.toNat - 48)).map Int.ofNat else none
  | '-' :: c :: rest =>
    if c.isDigit then (pyIntDigits rest (c.toNat - 48)).map (fun n => -(Int.ofNat n)) else none
  | c :: rest =>
    if c.isDigit then (pyIntDigits rest (c.toNat - 48)).map Int.ofNat else none
  | [] => none

/-- Lines 584-591: take the first responses key, try `int(...)`, and fall
back to the empty string on `ValueError`. -/
def coerce_status_code (k : String) : EscVal :=
  match pyInt k with
  | some n => .int n
  | none => .str ""

/-- Lines 563-575: extract `(required, properties, example)` from the
`requestBody`, looking only under `content["application/json"]`; `example`
is a sibling of `schema` (line 574). -/
def extract_request_body (rb : Option RequestBodySpec) :
    Option (List String) × Option (List (String × PropertySpec)) × Option String :=
  match rb with
  | none => (none, none, none)
  | some body =>
    match body.content with
    | none => (none, none, none)
    | some content =>
      match content.applicationJson with
      | none => (none, none, none)
      | some mt =>
        let required := match mt.schema with
          | some s => s.required
          | none => none
        let properties := match mt.schema with
          | some s => s.properties
          | none => none
        (required, properties, mt.exampleVal)

/-- The loop state of the walker in `parse_openapi_spec`: the service
dictionary, the variable set, and the loop-carried local
`expected_status_code` (`none` = never assigned / unbound). -/
structure WalkState where
  dict : List (ServiceKey × ServiceRecord)
  varset : List String
  esc : Option EscVal
deriving DecidableEq, Repr

/-- One iteration of the walker's inner loop (lines 541-607) on the
operation under `path`/`method`.  Mirrors the source order: defaulted
`tags`/`summary`/`description`, the mandatory `operationId` check (raises
`ValueError`), request-body extraction, the `responses`-conditional
assignment of `expected_status_code` (which otherwise keeps its previous
value and is unbound on the first iteration), record construction
(raises `UnboundLocalError` if unbound), and the variable-set fold. -/
def walkOp (path method : String) (op : Operation) (st : WalkState) :
    Except PyError WalkState :=
  let tags : PyTags := match op.tags with
    | some l => .list l
    | none => .str ""
  let summary := op.summary.getD ""
  let description := op.description.getD ""
  match op.operationId with
  | none => .error .valueErrorNoOperationId
  | some operationid =>
    let rbe := extract_request_body op.requestBody
    let required := rbe.1
    let properties := rbe.2.1
    let exampleVal := rbe.2.2
    let esc : Option EscVal := match op.responses with
      | some (k :: _) => some (coerce_status_code k)
      | some [] => st.esc
      | none => st.esc
    match esc with
    | none => .error .unboundLocalExpectedStatusCode
    | some expected_status_code =>
      let record : ServiceRecord :=
        { properties := properties, required := required, exampleVal := exampleVal,
          tags := tags, summary := summary, description := description,
          expected_status_code := expected_status_code }
      let varset := match properties with
        | some ps => (ps.map Prod.fst).foldl addUnique st.varset
        | none => st.varset
      .ok { dict := dictInsert st.dict (operationid, method, path) record,
            varset := varset, esc := esc }

/-- The flattened traversal order of the nested loops of lines 539-541:
every `(path, method, operation)` triple, paths first, then methods. -/
def flattenOps (spec : OpenAPISpec) : List (String × String × Operation) :=
  spec.paths.flatMap (fun pe => pe.2.map (fun me => (pe.1, me.1, me.2)))

/-- The walker's traversal: process the flattened operations in order,
propagating any raised exception. -/
def walk : List (String × String × Operation) → WalkState → Except PyError WalkState
  | [], st => .ok st
  | (p, m, op) :: rest, st =>
    match walkOp p m op st with
    | .error e => .error e
    | .ok st' => walk rest st'

/-- Lexicographic (code-point) string comparison, exactly how Python
compares two strings: the first differing character decides, a proper
prefix is smaller. -/
def charListLe : List Char → List Char → Bool
  | [], _ => true
  | _ :: _, [] => false
  | a :: as, b :: bs =>
    if a.toNat = b.toNat then charListLe as bs else decide (a.toNat < b.toNat)

/-- `str.lower` of the sort key (line 612). -/
def lowerData (s : String) : List Char := s.data.map Char.toLower

/-- `sorted(..., key=str.lower)` (line 612): case-insensitive ascending
comparison. -/
def ciLe (a b : String) : Prop := charListLe (lowerData a) (lowerData b) = true

instance : DecidableRel ciLe :=
  fun a b => inferInstanceAs (Decidable (charListLe (lowerData a) (lowerData b) = true))

theorem charListLe_total : ∀ (x y : List Char),
    charListLe x y = true ∨ charListLe y x = true := by
  intro x
  induction x with
  | nil => intro y; left; rfl
  | cons a as ih =>
    intro y
    cases y with
    | nil => right; rfl
    | cons b bs =>
      by_cases hab : a.toNat = b.toNat
      · simp only [charListLe, if_pos hab, if_pos hab.symm]
        exact ih bs
      · have hba : ¬ b.toNat = a.toNat := fun h => hab h.symm
        simp only [charListLe, if_neg hab, if_neg hba, decide_eq_true_eq]
        omega

theorem charListLe_trans : ∀ (x y z : List Char),
    charListLe x y = true → charListLe y z = true → charListLe x z = true := by
  intro x
  induction x with
  | nil => intro y z _ _; rfl
  | cons a as ih =>
    intro y z hxy hyz
    cases y with
    | nil => exact absurd hxy (by simp [charListLe])
    | cons b bs =>
      cases z with
      | nil => exact absurd hyz (by simp [charListLe])
      | cons c cs =>
        simp only [charListLe] at hxy hyz ⊢
        by_cases h1 : a.toNat = b.toNat
        · by_cases h2 : b.toNat = c.toNat
          · rw [if_pos h1] at hxy
            rw [if_pos h2] at hyz
            rw [if_pos (h1.trans h2)]
            exact ih bs cs hxy hyz
          · rw [if_neg h2, decide_eq_true_eq] at hyz
            have hac : ¬ a.toNat = c.toNat := by omega
            rw [if_neg hac, decide_eq_true_eq]
            omega
        · rw [if_neg h1, decide_eq_true_eq] at hxy
          by_cases h2 : b.toNat = c.toNat
          · have hac : ¬ a.toNat = c.toNat := by omega
            rw [if_neg hac, decide_eq_true_eq]
            omega
          · rw [if_neg h2, decide_eq_true_eq] at hyz
            have hac : ¬ a.toNat = c.toNat := by omega
            rw [if_neg hac, decide_eq_true_eq]
            omega

instance : IsTotal String ciLe :=
  ⟨fun a b => (charListLe_total (lowerData a) (lowerData b)).imp id id⟩

instance : IsTrans String ciLe :=
  ⟨fun _ _ _ h h' => charListLe_trans _ _ _ h h'⟩

/-- The result tuple of `parse_openapi_spec` (lines 503-512). -/
structure ParseOut where
  success : Bool
  servers : List Server
  service_dictionary : List (ServiceKey × ServiceRecord)
  all_service_variables : List String
deriving DecidableEq, Repr

/-- `parse_openapi_spec` (lines 491-617).  `parserOk` models whether the
`ResolvingParser` constructor succeeded; its exceptions are caught inside
the function (lines 524-528) and turn into a `False` success flag, while
the walk itself can raise.  On success the deduplicated variable set is
sorted case-insensitively (line 612); `sorted` is Python's stable sort,
modelled by insertion sort over `ciLe`. -/
def parse_openapi_spec (parserOk : Bool) (spec : OpenAPISpec) : Except PyError ParseOut :=
  if parserOk then
    match walk (flattenOps spec) ⟨[], [], none⟩ with
    | .error e => .error e
    | .ok st =>
      .ok { success := true,
            servers := spec.servers.getD [],
            service_dictionary := st.dict,
            all_service_variables := List.insertionSort ciLe st.varset }
  else
    .ok { success := false, servers := [], service_dictionary := [],
          all_service_variables := [] }

/-- All `properties` keys contributed by one operation to the variable
set (lines 605-607). -/
def opPropKeys (op : Operation) : List String :=
  match (extract_request_body op.requestBody).2.1 with
  | some ps => ps.map Prod.fst
  | none => []

/-- All `properties` keys across all operations, in traversal order. -/
def allPropertiesKeys (spec : OpenAPISpec) : List String :=
  (flattenOps spec).flatMap (fun t => opPropKeys t.2.2)

/-! ## Excel matrix renderer -/

/-- The cell background roles of the matrix renderer (global colour codes,
lines 45-48; bold header formats, lines 648-660; data formats,
lines 729-744). -/
inductive CellFormat where
  | boldTestCase
  | boldTestVariables
  | testCase
  | testVariables
  | optionalVariable
  | requiredVariable
deriving DecidableEq, Repr

/-- A value written to a worksheet cell: the fixed leading columns carry
strings, the expected-status-code column carries an `int` or `""`. -/
inductive CellValue where
  | str : String → CellValue
  | int : Int → CellValue
deriving DecidableEq, Repr

/-- One `worksheet.write(row, col, content, fmt)` call. -/
structure CellWrite where
  row : Nat
  col : Nat
  content : CellValue
  fmt : CellFormat
deriving DecidableEq, Repr

/-- One `worksheet.data_validation` call restricting a cell to a list of
values (lines 836-847). -/
structure DataValidation where
  row : Nat
  col : Nat
  values : List String
deriving DecidableEq, Repr

/-- `start_column = 6` (line 54): variable columns begin at column 6. -/
def start_column : Nat := 6

/-- The variable header cells of row 0 written by the loop of
lines 682-688: one `${variable}` cell per entry, consecutive columns. -/
def varHeaderCells : Nat → List String → List CellWrite
  | _, [] => []
  | c, v :: rest =>
    ⟨0, c, .str ("$\x7b" ++ v ++ "\x7d"), .boldTestVariables⟩ :: varHeaderCells (c + 1) rest

/-- `write_excel_header` (lines 620-691): the six fixed header cells, then
the variable header cells from `start_column` on; returns the writes and
`maxcol = start_column + len(all_service_variables)`. -/
def write_excel_header (all_service_variables : List String) : List CellWrite × Nat :=
  ([⟨0, 0, .str "*** Test Case ***", .boldTestCase⟩,
    ⟨0, 1, .str "[Documentation]", .boldTestCase⟩,
    ⟨0, 2, .str "[Tags]", .boldTestCase⟩,
    ⟨0, 3, .str "$\x7bAPI_CALL\x7d", .boldTestCase⟩,
    ⟨0, 4, .str "$\x7bAPI_OPERATION\x7d", .boldTestCase⟩,
    ⟨0, 5, .str "$\x7bEXPECTED_STATUS_CODE\x7d", .boldTestCase⟩]
    ++ varHeaderCells start_column all_service_variables,
   start_column + all_service_variables.length)

/-- `list.index(x)` wrapped in `try/except ValueError` (lines 799-806);
`none` models the `col = -1` case. -/
def listIndex (l : List String) (x : String) : Option Nat :=
  match l with
  | [] => none
  | y :: rest => if y = x then some 0 else (listIndex rest x).map Nat.succ

/-- Lines 809-816: the cell format of one property cell — `optional` by
default, `required` when the (truthy) `required` list contains the
property name. -/
def prop_cell_format (required : Option (List String)) (prop : String) : CellFormat :=
  if pyTruthyList required then
    if prop ∈ required.getD [] then .requiredVariable else .optionalVariable
  else .optionalVariable

/-- Lines 796-847 for one property of one test-case row: locate the
column in `all_service_variables` (a miss is a no-op), classify
required/optional, seed the example value when requested, and attach a
list validation when the property has a (truthy) `enum`. -/
def prop_cell (all_service_variables : List String) (row : Nat)
    (required : Option (List String)) (add_example_data : Bool)
    (p : String × PropertySpec) : Option (CellWrite × Option DataValidation) :=
  match listIndex all_service_variables p.1 with
  | none => none
  | some col =>
    let fmt := prop_cell_format required p.1
    let content : String :=
      if add_example_data then
        match p.2.exampleVal with
        | some e => e
        | none => ""
      else ""
    let validation : Option DataValidation :=
      if pyTruthyList p.2.enum then
        some ⟨row, col + start_column, p.2.enum.getD []⟩
      else none
    some (⟨row, col + start_column, .str content, fmt⟩, validation)

/-- `",".join(tags)` guarded by truthiness (lines 783-786).  A non-empty
`str` value would be joined character by character by Python. -/
def tags_csv (tags : PyTags) : String :=
  match tags with
  | .list [] => ""
  | .list (t :: ts) => ts.foldl (fun a b => a ++ "," ++ b) t
  | .str s =>
    match s.data.map (fun c => String.mk [c]) with
    | [] => ""
    | t :: ts => ts.foldl (fun a b => a ++ "," ++ b) t

/-- The six fixed data cells of one test-case row (lines 789-794). -/
def row_fixed_cells (row : Nat) (key : ServiceKey) (rec : ServiceRecord) :
    List CellWrite :=
  [⟨row, 0, .str key.1, .testCase⟩,
   ⟨row, 1, .str rec.summary, .testCase⟩,
   ⟨row, 2, .str (tags_csv rec.tags), .testCase⟩,
   ⟨row, 3, .str key.1, .testCase⟩,
   ⟨row, 4, .str key.2.1.toUpper, .testCase⟩,
   ⟨row, 5, (match rec.expected_status_code with
             | .int n => .int n
             | .str s => .str s), .testCase⟩]

/-- One full data row (lines 769-849): fixed cells plus one cell per
property (in `properties` iteration order). -/
def excel_row (all_service_variables : List String) (add_example_data : Bool)
    (row : Nat) (key : ServiceKey) (rec : ServiceRecord) :
    List CellWrite × List DataValidation :=
  let propCells :=
    match rec.properties with
    | some ps => ps.filterMap (prop_cell all_service_variables row rec.required add_example_data)
    | none => []
  (row_fixed_cells row key rec ++ propCells.map Prod.fst,
   propCells.filterMap Prod.snd)

/-- The cosmetic background prefill of the variable region
(lines 761-763): every cell of rows `1..maxrow`, columns
`start_column..maxcol-1` gets an empty string first. -/
def prefill_cells (maxrow maxcol : Nat) : List CellWrite :=
  (List.range maxrow).flatMap (fun r =>
    (List.range (maxcol - start_column)).map (fun c =>
      ⟨r + 1, c + start_column, .str "", .testVariables⟩))

/-- `write_excel_test_case_data` (lines 694-856): the prefill writes, then
one row per test case in dictionary order; returns the writes, the data
validations and `maxrow = len(test_cases)`. -/
def write_excel_test_case_data (all_service_variables : List String)
    (test_cases : List (ServiceKey × ServiceRecord)) (add_example_data : Bool) :
    List CellWrite × List DataValidation × Nat :=
  let maxrow := test_cases.length
  let maxcol := start_column + all_service_variables.length
  let rows := (List.enumFrom 1 test_cases).map
    (fun kv => excel_row all_service_variables add_example_data kv.1 kv.2.1 kv.2.2)
  (prefill_cells maxrow maxcol ++ rows.flatMap Prod.fst,
   rows.flatMap Prod.snd, maxrow)

/-! ## String helpers (Python semantics) -/

/-- Python `s.replace(pat, rep)` on a non-empty pattern: scan left to
right, replacing non-overlapping occurrences.  Fuel-based structural
recursion (the fuel `s.length` is always sufficient since every
replacement consumes at least one character). -/
def pyReplaceFuel (pat rep : List Char) : Nat → List Char → List Char
  | 0, l => l
  | _ + 1, [] => []
  | fuel + 1, c :: rest =>
    if pat.isPrefixOf (c :: rest) then
      rep ++ pyReplaceFuel pat rep fuel (List.drop pat.length (c :: rest))
    else
      c :: pyReplaceFuel pat rep fuel rest

/-- Python `s.replace(pat, rep)` (all template-token substitutions of the
source use non-empty patterns). -/
def pyReplace (s pat rep : String) : String :=
  ⟨pyReplaceFuel pat.data rep.data s.length s.data⟩

/-- `test_case_endpoint.replace("{", "${")` (line 1021) specialised to its
single-character pattern: every `{` becomes `${`. -/
def replaceBraces : List Char → List Char
  | [] => []
  | c :: rest =>
    if c = '\x7b' then '$' :: '\x7b' :: replaceBraces rest else c :: replaceBraces rest

/-! ## The base-URL regular expression (includes renderer)

`write_robot_framework_includes_file` applies
`re.search(r"https:\/\/api.*(\/.*\/.*)", url)` (lines 893-898) and reads
group 1.  For this fixed pattern, Python `re` semantics are: the match
starts at the leftmost occurrence of the literal `https://api` whose
remaining line (`.` does not cross a newline) contains at least two `/`;
the greedy `.*` after `api` pushes the group as far right as possible, so
group 1 is the suffix of that line starting at the second-to-last `/`. -/

/-- The suffix starting at the last `/` that is still followed by another
`/` (the greedy placement of group `(\/.*\/.*)`), `none` when the line
holds fewer than two slashes. -/
def lastTwoSlashSuffix : List Char → Option (List Char)
  | [] => none
  | c :: rest =>
    match lastTwoSlashSuffix rest with
    | some g => some g
    | none => if c = '/' ∧ '/' ∈ rest then some (c :: rest) else none

/-- `re.search` of the fixed pattern: try every start position left to
right; at an occurrence of `https://api`, the candidate line stops at the
next newline. -/
def searchApiBase : List Char → Option (List Char)
  | [] => none
  | c :: rest =>
    if ("https://api".data).isPrefixOf (c :: rest) then
      match lastTwoSlashSuffix (((c :: rest).drop 11).takeWhile (· ≠ '\n')) with
      | some g => some g
      | none => searchApiBase rest
    else searchApiBase rest

/-- Group 1 of `re.search(r"https:\/\/api.*(\/.*\/.*)", url)` (line 896),
`none` when the pattern does not match. -/
def regex_api_base_url (url : String) : Option String :=
  (searchApiBase url.data).map (fun g => ⟨g⟩)

/-- The sentinel default of the includes renderer (line 888). -/
def base_url_sentinel : String := "BASE_URL_NOT_FOUND_AND_NEEDS_TO_BE_SET_MANUALLY"

/-- The server loop of lines 894-898: every matching server overwrites
`base_url`, so the last match wins; the sentinel survives when no server
matches. -/
def extract_base_url (servers : List Server) : String :=
  servers.foldl
    (fun acc s =>
      match regex_api_base_url s.url with
      | some m => m
      | none => acc)
    base_url_sentinel

/-- `write_robot_framework_includes_file` (lines 859-920): substitute the
derived base URL, the input filename and the creation timestamp into the
includes template, then write the file (`openOk` models whether the
`open(..., "w")` of line 913 succeeds).  Returns the success flag and the
rendered content. -/
def write_robot_framework_includes_file (openOk : Bool) (servers : List Server)
    (template_string openapi_filename dt : String) : Bool × String :=
  let base_url := extract_base_url servers
  let t1 := pyReplace template_string "REPLACE_ROBOT_BASE_URL_REPLACE" base_url
  let t2 := pyReplace t1 "REPLACE_OPENAPI_FILENAME_REPLACE" openapi_filename
  let t3 := pyReplace t2 "REPLACE_DATETIME_CREATION_REPLACE" dt
  (openOk, t3)

/-! ## The URL-parameter regular expression (script renderer)

`write_robot_framework_test_case_file` uses
`re.finditer(r"\{(.*?)\}", endpoint)` (lines 1005-1006).  For this fixed
pattern, Python `re` semantics are: at each `{` (tried left to right),
the lazy group collects everything up to the first following `}` on the
same line (`.` does not cross a newline); matches do not overlap, and
scanning resumes after the consumed `}`.  The equivalent one-pass state
machine below carries the currently open group (`none` when outside a
candidate match). -/

/-- One-pass scan for `\{(.*?)\}`: `cur = some acc` while inside a
candidate group (characters accumulated in reverse). -/
def findPlaceholdersAux : List Char → Option (List Char) → List String
  | [], _ => []
  | c :: rest, none =>
    if c = '\x7b' then findPlaceholdersAux rest (some [])
    else findPlaceholdersAux rest none
  | c :: rest, some acc =>
    if c = '\x7d' then String.mk acc.reverse :: findPlaceholdersAux rest none
    else if c = '\n' then findPlaceholdersAux rest none
    else findPlaceholdersAux rest (some (c :: acc))

/-- The ordered list of group-1 values produced by
`re.finditer(r"\{(.*?)\}", endpoint)`. -/
def findPlaceholders (endpoint : List Char) : List String :=
  findPlaceholdersAux endpoint none

/-- One `Set Test Variable` line of the generated script
(lines 1012-1018): the parameter name becomes its own default value. -/
def setTestVariableLine (p : String) : String :=
  "    Set Test Variable  $\x7b" ++ p ++ "\x7d  " ++ p ++ "\n"

/-- Lines 998-1018: the block of variable-initialisation statements, one
per placeholder match in order of appearance; empty when the endpoint has
no `{` at all. -/
def url_parameters_string (endpoint : String) : String :=
  if '\x7b' ∈ endpoint.data then
    (findPlaceholders endpoint.data).foldl (fun acc p => acc ++ setTestVariableLine p) "\n"
  else ""

/-- Lines 1003-1021: the endpoint actually substituted into the script —
every `{` rewritten to `${` when the endpoint contains one. -/
def downstream_endpoint (endpoint : String) : String :=
  if '\x7b' ∈ endpoint.data then ⟨replaceBraces endpoint.data⟩ else endpoint

/-! ## Robot Framework script renderer -/

/-- Lines 971-976: the shared DataDriver argument string — the three fixed
tokens followed by one `${variable}` token per `all_service_variables`
entry, joined by two spaces. -/
def my_arguments_string (all_service_variables : List String) : String :=
  all_service_variables.foldl
    (fun s v => s ++ ("  " ++ ("$\x7b" ++ v ++ "\x7d")))
    "$\x7bAPI_CALL\x7d  $\x7bAPI_OPERATION\x7d  $\x7bEXPECTED_STATUS_CODE\x7d"

/-- Lines 1069-1077: the per-property `Add Variable To Dict If Value Is
Not None` statements, in `properties` iteration order. -/
def schema_generator_string (ps : List (String × PropertySpec)) : String :=
  ps.foldl
    (fun acc p =>
      acc ++ ("    $\x7bJsonDictionary\x7d=  Add Variable To Dict If Value Is Not None  VARIABLE_NAME="
        ++ p.1 ++ "  VARIABLE_VALUE=$\x7b" ++ p.1 ++ "\x7d  OUTPUT_DICT=$\x7bJsonDictionary\x7d\n"))
    ""

/-- Lines 993-1095: the rendered block for one test case — template choice
by `properties` truthiness, then the chain of placeholder substitutions. -/
def render_robot_test_case (args keyword_body_template keyword_no_body_template : String)
    (key : ServiceKey) (rec : ServiceRecord) : String :=
  let test_case_name := key.1
  let test_case_operation := key.2.1.toUpper
  let test_case_endpoint := key.2.2
  let url_parameters := url_parameters_string test_case_endpoint
  let endpoint := downstream_endpoint test_case_endpoint
  let tpl := if pyTruthyList rec.properties then keyword_body_template
             else keyword_no_body_template
  let t1 := pyReplace tpl "REPLACE_OPERATION_REPLACE" test_case_operation
  let t2 := pyReplace t1 "REPLACE_OPERATIONID_REPLACE" test_case_name
  let t3 := pyReplace t2 "REPLACE_DOCUMENTATION_REPLACE" rec.summary
  let t4 := pyReplace t3 "REPLACE_DATA_DRIVER_ARGUMENTS_REPLACE" args
  let t5 := pyReplace t4 "REPLACE_URL_PARAMETERS_REPLACE" url_parameters
  let t6 := if pyTruthyList rec.properties then
      pyReplace t5 "REPLACE_SCHEMA_GENERATOR_STRING_REPLACE"
        (schema_generator_string (rec.properties.getD []))
    else t5
  let t7 := pyReplace t6 "REPLACE_HTTP_OPERATION_REPLACE" test_case_operation
  pyReplace t7 "REPLACE_API_PATH_REPLACE" endpoint

/-- `write_robot_framework_test_case_file` (lines 923-1103): fail when the
target file cannot be opened (lines 964-969), otherwise render the header,
every test-case block and the optional footer.  Returns the success flag
and the written content. -/
def write_robot_framework_test_case_file (openOk : Bool)
    (all_service_variables : List String)
    (test_cases : List (ServiceKey × ServiceRecord))
    (openapi_filename dt : String)
    (header_template : String) (footer_template : Option String)
    (keyword_body_template keyword_no_body_template : String) : Bool × String :=
  if openOk then
    let args := my_arguments_string all_service_variables
    let h1 := pyReplace header_template "REPLACE_DATA_DRIVER_ARGUMENTS_REPLACE" args
    let h2 := pyReplace h1 "REPLACE_OPENAPI_FILENAME_REPLACE" openapi_filename
    let h3 := pyReplace h2 "REPLACE_DATETIME_CREATION_REPLACE" dt
    let body := test_cases.foldl
      (fun acc kr =>
        acc ++ render_robot_test_case args keyword_body_template keyword_no_body_template kr.1 kr.2)
      h3
    (true, body ++ footer_template.getD "")
  else (false, "")

/-! ## Jira ticket mirror -/

/-- Lines 353-361 of `create_jira_tickets`: after a successful "Test"
ticket creation, add the ticket id to the record's `tags`.  In the source,
`if "tags" in test_cases[test_case]` is always true (the walker always
stores the key) and `if type(test_cases[test_case]["tags"] == list)` is
always truthy (it tests the *type of the comparison result*, not the
type), so `.append` is called unconditionally: it extends a `list` value
and raises `AttributeError` on the `str` value that the walker stores
when the operation had no `tags` field. -/
def append_ticket_tag (tags : PyTags) (ticket_id : String) : Except PyError PyTags :=
  match tags with
  | .list l => .ok (.list (l ++ [ticket_id]))
  | .str _ => .error .attributeErrorStrAppend

/-- The per-record loop of lines 320-361: one "Test" ticket submission per
test case, in dictionary order.  `outcomes` is the stream of network
results of `create_jira_item` (`some id` = created with that key, `none` =
failed submission, which is logged and skipped).  Returns the updated
records and the created ticket ids, or the raised exception. -/
def jira_ticket_loop :
    List (ServiceKey × ServiceRecord) → List (Option String) →
    Except PyError (List (ServiceKey × ServiceRecord) × List String)
  | [], _ => .ok ([], [])
  | (k, r) :: rest, outcomes =>
    match (outcomes.head?).getD none with
    | some ticket_id =>
      match append_ticket_tag r.tags ticket_id with
      | .error e => .error e
      | .ok tags' =>
        match jira_ticket_loop rest outcomes.tail with
        | .error e => .error e
        | .ok (rs, ids) => .ok ((k, { r with tags := tags' }) :: rs, ticket_id :: ids)
    | none =>
      match jira_ticket_loop rest outcomes.tail with
      | .error e => .error e
      | .ok (rs, ids) => .ok ((k, r) :: rs, ids)

/-- `create_jira_tickets` (lines 252-415): fail when a Jira template is
unreadable; run the per-record loop; with zero created tickets the whole
step fails (lines 409-413); otherwise create the "Test Execution" ticket
(`execOutcome`) and the link request (`linkOk`), whose success is the
returned flag (lines 364-408).  The updated records are the in-place
`tags` mutations seen by both renderers. -/
def create_jira_tickets (jiraTemplatesOk : Bool)
    (test_cases : List (ServiceKey × ServiceRecord))
    (testOutcomes : List (Option String)) (execOutcome : Option String)
    (linkOk : Bool) :
    Except PyError (Bool × List (ServiceKey × ServiceRecord)) :=
  if jiraTemplatesOk then
    match jira_ticket_loop test_cases testOutcomes with
    | .error e => .error e
    | .ok (records, ids) =>
      if ids.isEmpty then .ok (false, records)
      else
        match execOutcome with
        | none => .ok (false, records)
        | some _ => .ok (linkOk, records)
  else .ok (false, test_cases)

/-! ## Orchestrator -/

/-- The three output files of a run. -/
inductive OutputArtifact where
  | excel
  | includes
  | robot
deriving DecidableEq, Repr

/-- The collaborator outcomes of one run of `transform_openapi_to_robot`:
file-system and network effects are parameters, the OpenAPI tree is the
parsed input. -/
structure TransformEnv where
  /-- `check_and_create_data_directory` succeeds (line 1150). -/
  dirOk : Bool
  /-- `read_template_files` succeeds (line 1162). -/
  templatesOk : Bool
  includesTemplate : String
  headerTemplate : String
  /-- The footer template is optional (line 240). -/
  footerTemplate : Option String
  keywordBodyTemplate : String
  keywordNoBodyTemplate : String
  /-- `check_if_file_exists(openapi_filename)` (line 1169). -/
  inputExists : Bool
  /-- The `ResolvingParser` constructor succeeds (line 525). -/
  parserOk : Bool
  spec : OpenAPISpec
  openapiFilename : String
  /-- The formatted `datetime.now()` timestamp. -/
  dt : String
  addExampleData : Bool
  jiraKey : Option String
  jiraTemplatesOk : Bool
  jiraTestOutcomes : List (Option String)
  jiraExecOutcome : Option String
  jiraLinkOk : Bool
  /-- `workbook.close()` succeeds (line 1239). -/
  excelSaveOk : Bool
  /-- The includes file can be opened for writing (line 913). -/
  includesOpenOk : Bool
  /-- The robot script file can be opened for writing (line 966). -/
  robotOpenOk : Bool
deriving Repr

/-- The outcome of one run: the returned flag (or escaped exception) and
the output files actually created. -/
structure TransformResult where
  result : Except PyError Bool
  artifacts : List OutputArtifact
deriving Repr

/-- `transform_openapi_to_robot` (lines 1106-1283): the sequential
pipeline.  Every stage's flag is checked and short-circuits the run —
except the final `write_robot_framework_test_case_file` call, whose flag
is assigned (line 1271) but never tested before the unconditional
`return True` (line 1283). -/
def transform_openapi_to_robot (env : TransformEnv) : TransformResult :=
  if !env.dirOk then ⟨.ok false, []⟩
  else if !env.templatesOk then ⟨.ok false, []⟩
  else if !env.inputExists then ⟨.ok false, []⟩
  else
    match parse_openapi_spec env.parserOk env.spec with
    | .error e => ⟨.error e, []⟩
    | .ok out =>
      if !out.success then ⟨.ok false, []⟩
      else
        let jira : Except PyError (Bool × List (ServiceKey × ServiceRecord)) :=
          match env.jiraKey with
          | some _ =>
            create_jira_tickets env.jiraTemplatesOk out.service_dictionary
              env.jiraTestOutcomes env.jiraExecOutcome env.jiraLinkOk
          | none => .ok (true, out.service_dictionary)
        match jira with
        | .error e => ⟨.error e, []⟩
        | .ok (jiraSuccess, test_cases) =>
          if !jiraSuccess then ⟨.ok false, []⟩
          else
            -- The workbook is populated in memory (lines 1216-1235) and
            -- only materialises on a successful close (line 1239).
            let _excel := (write_excel_header out.all_service_variables,
              write_excel_test_case_data out.all_service_variables test_cases
                env.addExampleData)
            if !env.excelSaveOk then ⟨.ok false, []⟩
            else
              let inc := write_robot_framework_includes_file env.includesOpenOk
                out.servers env.includesTemplate env.openapiFilename env.dt
              if !inc.1 then ⟨.ok false, [.excel]⟩
              else
                let robot := write_robot_framework_test_case_file env.robotOpenOk
                  out.all_service_variables test_cases env.openapiFilename env.dt
                  env.headerTemplate env.footerTemplate env.keywordBodyTemplate
                  env.keywordNoBodyTemplate
                -- Line 1283: `return True` regardless of `robot.1`.
                ⟨.ok true, [.excel, .includes] ++ if robot.1 then [.robot] else []⟩

/-! ## Helper lemmas -/

theorem dictLookup_dictInsert {V : Type} (d : List (ServiceKey × V)) (k : ServiceKey)
    (v : V) : dictLookup (dictInsert d k v) k = some v := by
  induction d with
  | nil => simp [dictInsert, dictLookup]
  | cons kv rest ih =>
    obtain ⟨k', v'⟩ := kv
    by_cases h : k' = k
    · simp [dictInsert, dictLookup, h]
    · simp [dictInsert, dictLookup, h, ih]

theorem mem_addUnique (l : List String) (x y : String) :
    y ∈ addUnique l x ↔ y ∈ l ∨ y = x := by
  by_cases h : x ∈ l
  · simp only [addUnique, if_pos h]
    constructor
    · exact Or.inl
    · rintro (hy | rfl)
      · exact hy
      · exact h
  · simp [addUnique, if_neg h]

theorem nodup_addUnique (l : List String) (x : String) (h : l.Nodup) :
    (addUnique l x).Nodup := by
  by_cases hx : x ∈ l
  · simpa [addUnique, if_pos hx] using h
  · simp only [addUnique, if_neg hx]
    rw [List.nodup_append]
    refine ⟨h, List.nodup_singleton x, ?_⟩
    intro a ha hax
    simp only [List.mem_singleton] at hax
    exact hx (hax ▸ ha)

theorem mem_foldl_addUnique (ks : List String) :
    ∀ (l : List String) (y : String), y ∈ ks.foldl addUnique l ↔ y ∈ l ∨ y ∈ ks := by
  induction ks with
  | nil => simp
  | cons k rest ih =>
    intro l y
    simp only [List.foldl_cons, ih, mem_addUnique, List.mem_cons]
    tauto

theorem nodup_foldl_addUnique (ks : List String) :
    ∀ (l : List String), l.Nodup → (ks.foldl addUnique l).Nodup := by
  induction ks with
  | nil => exact fun l h => h
  | cons k rest ih =>
    intro l h
    exact ih (addUnique l k) (nodup_addUnique l k h)

/-- `walkOp` raises `ValueError` exactly when `operationId` is missing. -/
theorem walkOp_opid_none (path method : String) (op : Operation) (st : WalkState)
    (h : op.operationId = none) :
    walkOp path method op st = .error .valueErrorNoOperationId := by
  unfold walkOp
  rw [h]

/-- The variable set grows by exactly the operation's `properties` keys. -/
theorem walkOp_varset (path method : String) (op : Operation) (st st' : WalkState)
    (h : walkOp path method op st = .ok st') :
    st'.varset = (opPropKeys op).foldl addUnique st.varset := by
  unfold walkOp at h
  cases hid : op.operationId with
  | none => rw [hid] at h; exact absurd h (by simp)
  | some oid =>
    rw [hid] at h
    dsimp only at h
    unfold opPropKeys
    cases hprops : (extract_request_body op.requestBody).2.1 with
    | none =>
      rw [hprops] at h
      cases hesc : (match op.responses with
        | some (k :: _) => some (coerce_status_code k)
        | some [] => st.esc
        | none => st.esc) with
      | none => rw [hesc] at h; exact absurd h (by simp)
      | some v =>
        rw [hesc] at h
        cases h
        simp
    | some ps =>
      rw [hprops] at h
      cases hesc : (match op.responses with
        | some (k :: _) => some (coerce_status_code k)
        | some [] => st.esc
        | none => st.esc) with
      | none => rw [hesc] at h; exact absurd h (by simp)
      | some v =>
        rw [hesc] at h
        cases h
        simp

/-- The loop-carried `expected_status_code` after one operation. -/
theorem walkOp_esc (path method : String) (op : Operation) (st st' : WalkState)
    (h : walkOp path method op st = .ok st') :
    st'.esc = (match op.responses with
      | some (k :: _) => some (coerce_status_code k)
      | some [] => st.esc
      | none => st.esc) := by
  unfold walkOp at h
  cases hid : op.operationId with
  | none => rw [hid] at h; exact absurd h (by simp)
  | some oid =>
    rw [hid] at h
    dsimp only at h
    cases hesc : (match op.responses with
      | some (k :: _) => some (coerce_status_code k)
      | some [] => st.esc
      | none => st.esc) with
    | none => rw [hesc] at h; exact absurd h (by simp)
    | some v =>
      rw [hesc] at h
      cases h
      simp

/-- Membership in the variable set after a full walk: exactly the initial
set plus every operation's `properties` keys. -/
theorem walk_varset_mem (ops : List (String × String × Operation)) :
    ∀ (st st' : WalkState), walk ops st = .ok st' → ∀ y,
      y ∈ st'.varset ↔ y ∈ st.varset ∨ y ∈ ops.flatMap (fun t => opPropKeys t.2.2) := by
  induction ops with
  | nil =>
    intro st st' h y
    cases h
    simp
  | cons t rest ih =>
    intro st st' h y
    obtain ⟨p, m, op⟩ := t
    unfold walk at h
    cases hop : walkOp p m op st with
    | error e => rw [hop] at h; exact absurd h (by simp)
    | ok st1 =>
      rw [hop] at h
      have h1 := walkOp_varset p m op st st1 hop
      rw [ih st1 st' h y, h1, mem_foldl_addUnique]
      simp only [List.flatMap_cons, List.mem_append]
      tauto

/-- The walk preserves duplicate-freedom of the variable set. -/
theorem walk_varset_nodup (ops : List (String × String × Operation)) :
    ∀ (st st' : WalkState), walk ops st = .ok st' → st.varset.Nodup → st'.varset.Nodup := by
  induction ops with
  | nil =>
    intro st st' h hn
    cases h
    exact hn
  | cons t rest ih =>
    intro st st' h hn
    obtain ⟨p, m, op⟩ := t
    unfold walk at h
    cases hop : walkOp p m op st with
    | error e => rw [hop] at h; exact absurd h (by simp)
    | ok st1 =>
      rw [hop] at h
      have h1 := walkOp_varset p m op st st1 hop
      exact ih st1 st' h (h1 ▸ nodup_foldl_addUnique _ _ hn)

/-- The first key of the most recent operation (in traversal order) whose
`responses` map is present and non-empty. -/
def lastResponsesKey (ops : List (String × String × Operation)) : Option String :=
  (ops.filterMap (fun t => match t.2.2.responses with
    | some (k :: _) => some k
    | some [] => none
    | none => none)).getLast?

/-- The loop-carried `expected_status_code` after a full walk: the coerced
first key of the most recent non-empty `responses` map, or the initial
value when no operation had one. -/
theorem walk_esc (ops : List (String × String × Operation)) :
    ∀ (st st' : WalkState), walk ops st = .ok st' →
      st'.esc = (match lastResponsesKey ops with
        | some k => some (coerce_status_code k)
        | none => st.esc) := by
  induction ops with
  | nil =>
    intro st st' h
    cases h
    simp [lastResponsesKey]
  | cons t rest ih =>
    intro st st' h
    obtain ⟨p, m, op⟩ := t
    unfold walk at h
    cases hop : walkOp p m op st with
    | error e => rw [hop] at h; exact absurd h (by simp)
    | ok st1 =>
      rw [hop] at h
      have h1 := walkOp_esc p m op st st1 hop
      have h2 := ih st1 st' h
      have hfm : lastResponsesKey ((p, m, op) :: rest)
          = (match lastResponsesKey rest with
             | some k => some k
             | none => (match op.responses with
               | some (k :: _) => some k
               | some [] => none
               | none => none)) := by
        unfold lastResponsesKey
        rw [List.filterMap_cons]
        cases hr : (match op.responses with
          | some (k :: _) => some k
          | some [] => none
          | none => (none : Option String)) with
        | none =>
          cases hl : (rest.filterMap (fun t => match t.2.2.responses with
            | some (k :: _) => some k
            | some [] => none
            | none => none)).getLast? with
          | none => simp [hl]
          | some k => simp [hl]
        | some k =>
          cases hl : (rest.filterMap (fun t => match t.2.2.responses with
            | some (k :: _) => some k
            | some [] => none
            | none => none)) with
          | nil => simp [hl]
          | cons x xs =>
            cases hgl : (x :: xs).getLast? with
            | none =>
              rw [List.getLast?_eq_none_iff] at hgl
              exact absurd hgl (by simp)
            | some y => simp [hl, List.getLast?_cons_cons, hgl]
      rw [hfm]
      cases hlr : lastResponsesKey rest with
      | some k =>
        rw [hlr] at h2
        exact h2
      | none =>
        rw [hlr] at h2
        rw [h2, h1]
        cases hresp : op.responses with
        | none => simp
        | some ks => cases ks <;> simp

/-- A successful walk of a concatenation splits at the boundary. -/
theorem walk_append (a b : List (String × String × Operation)) :
    ∀ (st st' : WalkState), walk (a ++ b) st = .ok st' →
      ∃ mid, walk a st = .ok mid ∧ walk b mid = .ok st' := by
  induction a with
  | nil =>
    intro st st' h
    exact ⟨st, rfl, h⟩
  | cons t rest ih =>
    intro st st' h
    obtain ⟨p, m, op⟩ := t
    rw [List.cons_append] at h
    unfold walk at h
    cases hop : walkOp p m op st with
    | error e => rw [hop] at h; exact absurd h (by simp)
    | ok st1 =>
      rw [hop] at h
      obtain ⟨mid, h1, h2⟩ := ih st1 st' h
      refine ⟨mid, ?_, h2⟩
      unfold walk
      rw [hop]
      exact h1

/-- Any walk that passes over an operation without `operationId` raises. -/
theorem walk_error_of_missing_opid (ops : List (String × String × Operation)) :
    ∀ (t : String × String × Operation), t ∈ ops → t.2.2.operationId = none →
      ∀ st, ∃ e, walk ops st = .error e := by
  induction ops with
  | nil =>
    intro t hmem
    exact absurd hmem (by simp)
  | cons o rest ih =>
    intro t hmem hnone st
    obtain ⟨p, m, op⟩ := o
    cases hop : walkOp p m op st with
    | error e =>
      refine ⟨e, ?_⟩
      unfold walk
      rw [hop]
    | ok st1 =>
      rcases List.mem_cons.mp hmem with rfl | hrest
      · exact absurd hop (by rw [walkOp_opid_none p m op st hnone]; simp)
      · obtain ⟨e, he⟩ := ih t hrest hnone st1
        refine ⟨e, ?_⟩
        unfold walk
        rw [hop]
        exact he

/-- If every operation has an `operationId` and the loop-carried
`expected_status_code` is already bound, the walk never raises. -/
theorem walk_ok_of_bound (ops : List (String × String × Operation)) :
    ∀ (st : WalkState) (v : EscVal), st.esc = some v →
      (∀ t ∈ ops, t.2.2.operationId ≠ none) →
      ∃ st', walk ops st = .ok st' := by
  induction ops with
  | nil =>
    intro st v _ _
    exact ⟨st, rfl⟩
  | cons t rest ih =>
    intro st v hesc hids
    obtain ⟨p, m, op⟩ := t
    have hid : op.operationId ≠ none := hids (p, m, op) (by simp)
    cases hopid : op.operationId with
    | none => exact absurd hopid hid
    | some oid =>
      have hok : ∃ st1, walkOp p m op st = .ok st1 ∧ ∃ w, st1.esc = some w := by
        unfold walkOp
        rw [hopid]
        dsimp only
        cases hresp : op.responses with
        | none =>
          rw [hesc]
          exact ⟨_, rfl, v, rfl⟩
        | some ks =>
          cases ks with
          | nil =>
            rw [hesc]
            exact ⟨_, rfl, v, rfl⟩
          | cons k kt => exact ⟨_, rfl, coerce_status_code k, rfl⟩
      obtain ⟨st1, hop, w, hw⟩ := hok
      obtain ⟨st', hst'⟩ := ih st1 w hw (fun u hu => hids u (List.mem_cons_of_mem _ hu))
      refine ⟨st', ?_⟩
      unfold walk
      rw [hop]
      exact hst'

/-- The variable header cells are the variables in order, one column each,
starting at the given column. -/
theorem varHeaderCells_enumFrom (vs : List String) :
    ∀ c, varHeaderCells c vs = (List.enumFrom c vs).map
      (fun iv => ⟨0, iv.1, .str ("$\x7b" ++ iv.2 ++ "\x7d"), .boldTestVariables⟩) := by
  induction vs with
  | nil => intro c; rfl
  | cons v rest ih =>
    intro c
    simp only [varHeaderCells, List.enumFrom, List.map_cons]
    rw [ih]

/-- Folding string concatenation over a list equals the seed followed by
the joined per-element strings. -/
theorem foldl_append_eq_join (f : String → String) (vs : List String) :
    ∀ s : String, vs.foldl (fun acc v => acc ++ f v) s
      = s ++ String.join (vs.map f) := by
  induction vs with
  | nil =>
    intro s
    simp [String.join]
  | cons v rest ih =>
    intro s
    simp only [List.foldl_cons, List.map_cons]
    rw [ih]
    have hjoin : String.join (f v :: rest.map f) = f v ++ String.join (rest.map f) := by
      apply String.ext
      simp [String.join_eq, String.data_append]
    rw [hjoin, String.append_assoc]

/-- Rewriting every brace is the character-level flat map sending `{` to
`${` and keeping everything else. -/
theorem replaceBraces_flatMap (l : List Char) :
    replaceBraces l = l.flatMap (fun c => if c = '\x7b' then ['$', '\x7b'] else [c]) := by
  induction l with
  | nil => rfl
  | cons c rest ih =>
    by_cases h : c = '\x7b'
    · simp [replaceBraces, h, ih]
    · simp [replaceBraces, h, ih]

/-- Without any `{` in the input, the placeholder scan finds nothing. -/
theorem findPlaceholdersAux_nil_of_no_brace (l : List Char) (h : '\x7b' ∉ l) :
    findPlaceholdersAux l none = [] := by
  induction l with
  | nil => rfl
  | cons c rest ih =>
    have hc : ¬ c = '\x7b' := fun he => h (he ▸ List.mem_cons_self c rest)
    have hr : '\x7b' ∉ rest := fun hm => h (List.mem_cons_of_mem c hm)
    simp only [findPlaceholdersAux, if_neg hc]
    exact ih hr

/-- If the placeholder scan finds a match, the endpoint contains `{`. -/
theorem contains_brace_of_findPlaceholders_ne_nil (l : List Char)
    (h : findPlaceholders l ≠ []) : '\x7b' ∈ l := by
  by_contra hmem
  exact h (findPlaceholdersAux_nil_of_no_brace l hmem)

/-- The server loop keeps the group of the last matching server and falls
back to the initial accumulator. -/
theorem extract_base_url_last (servers : List Server) :
    extract_base_url servers
      = ((servers.filterMap (fun s => regex_api_base_url s.url)).getLast?).getD
          base_url_sentinel := by
  suffices h : ∀ (l : List Server) (acc : String),
      l.foldl (fun acc s =>
        match regex_api_base_url s.url with
        | some m => m
        | none => acc) acc
      = ((l.filterMap (fun s => regex_api_base_url s.url)).getLast?).getD acc by
    exact h servers base_url_sentinel
  intro l
  induction l with
  | nil => intro acc; rfl
  | cons s rest ih =>
    intro acc
    simp only [List.foldl_cons, List.filterMap_cons]
    cases hm : regex_api_base_url s.url with
    | none => rw [ih]
    | some m =>
      rw [ih]
      cases hl : rest.filterMap (fun s => regex_api_base_url s.url) with
      | nil => simp
      | cons x xs =>
        cases hgl : (x :: xs).getLast? with
        | none =>
          rw [List.getLast?_eq_none_iff] at hgl
          exact absurd hgl (by simp)
        | some y => simp [List.getLast?_cons_cons, hgl]

/-! ## Claims -/

/-- C3, counterexample: with two servers both matching the base-URL
pattern, the includes renderer substitutes the portion of the *last*
matching entry, not the first — `extract_base_url` yields `/c/d` from the
second server although the first server matches with `/a/b`. -/
theorem c3_counterexample :
    extract_base_url
        [⟨"https://api.one.example/a/b"⟩, ⟨"https://api.two.example/c/d"⟩] = "/c/d"
    ∧ regex_api_base_url "https://api.one.example/a/b" = some "/a/b"
    ∧ ("/c/d" : String) ≠ "/a/b" := by
  refine ⟨by decide, by decide, by decide⟩

/-- C3, amended: the includes renderer substitutes the trailing
`/seg/seg` portion of the *last* entry of the server list whose url
matches `https://api.<host>/<seg>/<seg>`; when no entry matches, it
substitutes the literal non-empty sentinel
`BASE_URL_NOT_FOUND_AND_NEEDS_TO_BE_SET_MANUALLY` rather than an empty or
null value. -/
theorem c3_base_url_last_match_or_sentinel (servers : List Server) :
    extract_base_url servers
      = ((servers.filterMap (fun s => regex_api_base_url s.url)).getLast?).getD
          base_url_sentinel
    ∧ (servers.filterMap (fun s => regex_api_base_url s.url) = [] →
        extract_base_url servers = base_url_sentinel ∧ base_url_sentinel ≠ "") := by
  refine ⟨extract_base_url_last servers, fun h => ⟨?_, by decide⟩⟩
  rw [extract_base_url_last servers, h]
  rfl

/-- C3, witness: the amended theorem applied to a concrete server list
with no matching entry. -/
theorem c3_base_url_witness :
    extract_base_url [⟨"http://plain.example"⟩]
      = (([⟨"http://plain.example"⟩] : List Server).filterMap
          (fun s => regex_api_base_url s.url)).getLast?.getD base_url_sentinel
    ∧ (([⟨"http://plain.example"⟩] : List Server).filterMap
          (fun s => regex_api_base_url s.url) = [] →
        extract_base_url [⟨"http://plain.example"⟩] = base_url_sentinel
        ∧ base_url_sentinel ≠ "") :=
  c3_base_url_last_match_or_sentinel [⟨"http://plain.example"⟩]

/-- The required/optional classification of one matrix cell. -/
theorem prop_cell_format_required_iff (required : Option (List String)) (prop : String) :
    prop_cell_format required prop = .requiredVariable
      ↔ ∃ r, required = some r ∧ prop ∈ r := by
  unfold prop_cell_format pyTruthyList
  cases required with
  | none => simp
  | some r =>
    cases r with
    | nil => simp
    | cons a as =>
      by_cases hmem : prop ∈ a :: as
      · simp [hmem]
      · simp [hmem]

/-- C7: for every property cell the matrix renderer actually writes, the
cell carries the required-cell format iff the property's name appears in
the operation's `required` list; otherwise it carries the optional
format. -/
theorem c7_required_marker (all_service_variables : List String) (row : Nat)
    (required : Option (List String)) (add_example_data : Bool)
    (p : String × PropertySpec) (w : CellWrite) (v : Option DataValidation)
    (h : prop_cell all_service_variables row required add_example_data p = some (w, v)) :
    (w.fmt = CellFormat.requiredVariable ↔ ∃ r, required = some r ∧ p.1 ∈ r)
    ∧ (w.fmt = CellFormat.requiredVariable ∨ w.fmt = CellFormat.optionalVariable) := by
  unfold prop_cell at h
  cases hidx : listIndex all_service_variables p.1 with
  | none => rw [hidx] at h; exact absurd h (by simp)
  | some col =>
    rw [hidx] at h
    simp only [Option.some.injEq, Prod.mk.injEq] at h
    obtain ⟨hw, _⟩ := h
    have hfmt : w.fmt = prop_cell_format required p.1 := by rw [← hw]
    rw [hfmt]
    refine ⟨prop_cell_format_required_iff required p.1, ?_⟩
    unfold prop_cell_format
    by_cases h1 : pyTruthyList required = true
    · by_cases h2 : p.1 ∈ required.getD []
      · simp [h1, h2]
      · simp [h1, h2]
    · simp [h1]

/-- C7, witness: the theorem applied to a concrete rendered cell of a
property that is in the `required` list. -/
theorem c7_required_marker_witness :
    ((⟨1, 6, CellValue.str "", CellFormat.requiredVariable⟩ : CellWrite).fmt
        = CellFormat.requiredVariable
      ↔ ∃ r, (some ["foo"] : Option (List String)) = some r ∧ "foo" ∈ r)
    ∧ ((⟨1, 6, CellValue.str "", CellFormat.requiredVariable⟩ : CellWrite).fmt
        = CellFormat.requiredVariable
      ∨ (⟨1, 6, CellValue.str "", CellFormat.requiredVariable⟩ : CellWrite).fmt
        = CellFormat.optionalVariable) :=
  c7_required_marker ["foo"] 1 (some ["foo"]) false ("foo", {}) _ none rfl

/-- C8: for every endpoint whose path template contains `{name}`
placeholders, the rendered variable-initialisation block consists of one
`Set Test Variable` statement per placeholder, in order of appearance,
binding the placeholder name to the literal name itself; and the path
used downstream is the endpoint with every `{` rewritten to `${`. -/
theorem c8_path_parameter_rewrite (endpoint : String)
    (h : findPlaceholders endpoint.data ≠ []) :
    url_parameters_string endpoint
      = "\n" ++ String.join ((findPlaceholders endpoint.data).map setTestVariableLine)
    ∧ (downstream_endpoint endpoint).data
      = endpoint.data.flatMap (fun c => if c = '\x7b' then ['$', '\x7b'] else [c]) := by
  have hb : '\x7b' ∈ endpoint.data := contains_brace_of_findPlaceholders_ne_nil _ h
  constructor
  · unfold url_parameters_string
    rw [if_pos hb]
    exact foldl_append_eq_join setTestVariableLine (findPlaceholders endpoint.data) "\n"
  · unfold downstream_endpoint
    rw [if_pos hb]
    exact replaceBraces_flatMap endpoint.data

/-- C8, witness: the theorem applied to the endpoint `/pets/{petId}`. -/
theorem c8_path_parameter_rewrite_witness :
    url_parameters_string "/pets/\x7bpetId\x7d"
      = "\n" ++ String.join ((findPlaceholders "/pets/\x7bpetId\x7d".data).map setTestVariableLine)
    ∧ (downstream_endpoint "/pets/\x7bpetId\x7d").data
      = "/pets/\x7bpetId\x7d".data.flatMap (fun c => if c = '\x7b' then ['$', '\x7b'] else [c]) :=
  c8_path_parameter_rewrite "/pets/\x7bpetId\x7d" (by decide)

/-- C9, counterexample: for an operation without a `tags` field the walker
stores the empty string as the record's `tags`, and a successful ticket
submission then raises `AttributeError` from `tags.append` instead of
creating a list holding the ticket id. -/
theorem c9_counterexample :
    walkOp "/p" "get" { operationId := some "op1", responses := some ["200"] }
        ⟨[], [], none⟩
      = .ok ⟨[(("op1", "get", "/p"),
              ⟨none, none, none, PyTags.str "", "", "", EscVal.int 200⟩)],
             [], some (EscVal.int 200)⟩
    ∧ append_ticket_tag (PyTags.str "") "JIRA-1" = .error PyError.attributeErrorStrAppend
    ∧ append_ticket_tag (PyTags.str "") "JIRA-1" ≠ .ok (PyTags.list ["JIRA-1"]) := by
  refine ⟨rfl, rfl, by simp [append_ticket_tag]⟩

/-- C9, amended: when the test-ticket submission for a record succeeds,
the created ticket id is appended to that record's `tags` if `tags` is a
list (which is the case exactly when the source operation had a `tags`
field); for a record whose source operation had no `tags` field, `tags`
holds the empty string and the append attempt raises `AttributeError` —
no list is created. -/
theorem c9_ticket_tag_append (k : ServiceKey) (r : ServiceRecord) (ticket_id : String) :
    (∀ l, r.tags = PyTags.list l →
      jira_ticket_loop [(k, r)] [some ticket_id]
        = .ok ([(k, { r with tags := PyTags.list (l ++ [ticket_id]) })], [ticket_id]))
    ∧ (∀ s, r.tags = PyTags.str s →
      jira_ticket_loop [(k, r)] [some ticket_id]
        = .error PyError.attributeErrorStrAppend) := by
  constructor
  · intro l hl
    simp [jira_ticket_loop, append_ticket_tag, hl]
  · intro s hs
    simp [jira_ticket_loop, append_ticket_tag, hs]

/-- C9, witness: the amended theorem applied to a record whose operation
carried the tag list `["pets"]`. -/
theorem c9_ticket_tag_append_witness :
    jira_ticket_loop
        [(("op1", "get", "/p"),
          ⟨none, none, none, PyTags.list ["pets"], "", "", EscVal.int 200⟩)]
        [some "JIRA-1"]
      = .ok ([(("op1", "get", "/p"),
              ⟨none, none, none, PyTags.list ["pets", "JIRA-1"], "", "", EscVal.int 200⟩)],
             ["JIRA-1"]) :=
  (c9_ticket_tag_append ("op1", "get", "/p")
    ⟨none, none, none, PyTags.list ["pets"], "", "", EscVal.int 200⟩ "JIRA-1").1
    ["pets"] rfl

/-- C6: for every operation with a present, non-empty `responses` map,
the walker stores as expected status code the integer coercion of the
*first* key in iteration order; when that coercion fails, it stores the
empty string, not a numeric default. -/
theorem c6_first_response_key (st : WalkState) (path method : String) (op : Operation)
    (oid k : String) (ks : List String)
    (hoid : op.operationId = some oid) (hresp : op.responses = some (k :: ks)) :
    ∃ st', walkOp path method op st = .ok st'
      ∧ ∃ rec, dictLookup st'.dict (oid, method, path) = some rec
        ∧ (∀ n, pyInt k = some n → rec.expected_status_code = EscVal.int n)
        ∧ (pyInt k = none → rec.expected_status_code = EscVal.str "") := by
  unfold walkOp
  rw [hoid, hresp]
  dsimp only
  refine ⟨_, rfl, _, dictLookup_dictInsert _ _ _, ?_, ?_⟩
  · intro n hn
    simp [coerce_status_code, hn]
  · intro hn
    simp [coerce_status_code, hn]

/-- C6, witness: the theorem applied to a concrete operation whose first
responses key is the non-numeric string `default` (coercion fails). -/
theorem c6_first_response_key_witness :
    ∃ st', walkOp "/p" "get"
        { operationId := some "op1", responses := some ["default", "200"] }
        ⟨[], [], none⟩ = .ok st'
      ∧ ∃ rec, dictLookup st'.dict ("op1", "get", "/p") = some rec
        ∧ (∀ n, pyInt "default" = some n → rec.expected_status_code = EscVal.int n)
        ∧ (pyInt "default" = none → rec.expected_status_code = EscVal.str "") :=
  c6_first_response_key ⟨[], [], none⟩ "/p" "get"
    { operationId := some "op1", responses := some ["default", "200"] }
    "op1" "default" ["200"] rfl rfl

/-- C10: an operation without a `responses` key does not reset the
loop-carried expected status code — its record receives the value
computed for the most recent earlier operation that had a (non-empty)
responses map; and when the very first traversed operation lacks
`responses`, the walker raises `UnboundLocalError` instead of storing a
default. -/
theorem c10_status_code_carryover :
    (∀ (pre : List (String × String × Operation)) (path method oid : String)
       (op : Operation) (st' : WalkState),
      op.operationId = some oid → op.responses = none →
      walk (pre ++ [(path, method, op)]) ⟨[], [], none⟩ = .ok st' →
      ∃ rec, dictLookup st'.dict (oid, method, path) = some rec
        ∧ some rec.expected_status_code
            = (lastResponsesKey pre).map coerce_status_code)
    ∧ (∀ (path method oid : String) (op : Operation)
         (rest : List (String × String × Operation)),
      op.operationId = some oid → op.responses = none →
      walk ((path, method, op) :: rest) ⟨[], [], none⟩
        = .error PyError.unboundLocalExpectedStatusCode) := by
  constructor
  · intro pre path method oid op st' hoid hresp hwalk
    obtain ⟨mid, hpre, hlast⟩ := walk_append pre [(path, method, op)] _ _ hwalk
    have hmidesc := walk_esc pre _ _ hpre
    unfold walk at hlast
    cases hop : walkOp path method op mid with
    | error e => rw [hop] at hlast; exact absurd hlast (by simp)
    | ok st1 =>
      rw [hop] at hlast
      unfold walk at hlast
      cases hlast
      unfold walkOp at hop
      rw [hoid, hresp] at hop
      dsimp only at hop
      cases hmid : mid.esc with
      | none =>
        rw [hmid] at hop
        exact absurd hop (by simp)
      | some v =>
        rw [hmid] at hop
        cases hop
        refine ⟨_, dictLookup_dictInsert _ _ _, ?_⟩
        rw [hmid] at hmidesc
        cases hlr : lastResponsesKey pre with
        | none =>
          rw [hlr] at hmidesc
          exact absurd hmidesc (by simp)
        | some key =>
          rw [hlr] at hmidesc
          dsimp only at hmidesc
          simp only [Option.map_some]
          exact hmidesc
  · intro path method oid op rest hoid hresp
    have hop : walkOp path method op ⟨[], [], none⟩
        = .error PyError.unboundLocalExpectedStatusCode := by
      unfold walkOp
      rw [hoid, hresp]
    unfold walk
    rw [hop]

/-- C10, witness: both halves of the theorem applied to concrete inputs —
a two-operation walk where the second operation lacks `responses` and
inherits the `404` computed for the first, and a walk whose first
operation lacks `responses` and raises. -/
theorem c10_status_code_carryover_witness :
    (∃ rec, dictLookup
        (match walk
          [("/a", "get", { operationId := some "opA", responses := some ["404"] }),
           ("/b", "get", { operationId := some "opB" })] ⟨[], [], none⟩ with
         | .ok st' => st'.dict
         | .error _ => []) ("opB", "get", "/b") = some rec
      ∧ some rec.expected_status_code
          = (lastResponsesKey
              [("/a", "get", { operationId := some "opA", responses := some ["404"] })]).map
              coerce_status_code)
    ∧ walk [("/b", "get", { operationId := some "opB" })] ⟨[], [], none⟩
        = .error PyError.unboundLocalExpectedStatusCode := by
  constructor
  · obtain ⟨rec, hrec, hesc⟩ := c10_status_code_carryover.1
      [("/a", "get", { operationId := some "opA", responses := some ["404"] })]
      "/b" "get" "opB" { operationId := some "opB" } _ rfl rfl rfl
    exact ⟨rec, hrec, hesc⟩
  · exact c10_status_code_carryover.2 "/b" "get" "opB" { operationId := some "opB" } [] rfl rfl

/-- C5, counterexample: the walker does *not* always signal failure by
return value — on an interface description containing an operation
without `operationId`, `parse_openapi_spec` raises a `ValueError` past
its own boundary (the `try`/`except` of lines 524-528 only guards the
document-parser constructor, not the walk). -/
theorem c5_counterexample :
    parse_openapi_spec true { paths := [("/p", [("get", {})])] }
      = .error PyError.valueErrorNoOperationId := rfl

/-- C5, amended: the walker signals document-parser failures by returning
a success indicator, and raises past its boundary only for a malformed
operation (a missing `operationId`, or an unbound expected status code
when the first traversed operation has no non-empty `responses` map):
whenever every operation has an `operationId` and the first traversed
operation (if any) has a non-empty `responses` map, `parse_openapi_spec`
returns a result instead of raising. -/
theorem c5_walker_returns_unless_malformed (parserOk : Bool) (spec : OpenAPISpec)
    (hids : ∀ t ∈ flattenOps spec, t.2.2.operationId ≠ none)
    (hfirst : flattenOps spec = []
      ∨ ∃ p m op k ks rest, flattenOps spec = (p, m, op) :: rest
          ∧ op.responses = some (k :: ks)) :
    ∃ out, parse_openapi_spec parserOk spec = .ok out := by
  cases parserOk with
  | false => exact ⟨_, rfl⟩
  | true =>
    have hwalk : ∃ st', walk (flattenOps spec) ⟨[], [], none⟩ = .ok st' := by
      rcases hfirst with hnil | ⟨p, m, op, k, ks, rest, heq, hresp⟩
      · rw [hnil]
        exact ⟨_, rfl⟩
      · rw [heq]
        rw [heq] at hids
        have hid : op.operationId ≠ none := hids (p, m, op) (by simp)
        cases hopid : op.operationId with
        | none => exact absurd hopid hid
        | some oid =>
          have hop : ∃ st1, walkOp p m op ⟨[], [], none⟩ = .ok st1
              ∧ st1.esc = some (coerce_status_code k) := by
            unfold walkOp
            rw [hopid, hresp]
            exact ⟨_, rfl, rfl⟩
          obtain ⟨st1, hop1, hesc1⟩ := hop
          obtain ⟨st', hst'⟩ := walk_ok_of_bound rest st1 _ hesc1
            (fun u hu => hids u (List.mem_cons_of_mem _ hu))
          refine ⟨st', ?_⟩
          unfold walk
          rw [hop1]
          exact hst'
    obtain ⟨st', hw⟩ := hwalk
    exact ⟨_, by unfold parse_openapi_spec; rw [if_pos rfl, hw]⟩

/-- C5, witness: the amended theorem applied to a concrete well-formed
description. -/
theorem c5_walker_returns_witness :
    ∃ out, parse_openapi_spec true
      { paths := [("/p", [("get",
        { operationId := some "op1", responses := some ["200"] })])] } = .ok out :=
  c5_walker_returns_unless_malformed true
    { paths := [("/p", [("get",
      { operationId := some "op1", responses := some ["200"] })])] }
    (by decide)
    (Or.inr ⟨"/p", "get", { operationId := some "op1", responses := some ["200"] },
      "200", [], [], rfl, rfl⟩)

/-- C4: for every interface description containing an operation without
an `operationId` field, the run never reports success and none of the
three output files (matrix, includes, script) is created — the walk
raises before any output file is opened. -/
theorem c4_missing_operationid_aborts (env : TransformEnv)
    (t : String × String × Operation)
    (hmem : t ∈ flattenOps env.spec) (hnone : t.2.2.operationId = none) :
    (transform_openapi_to_robot env).artifacts = []
    ∧ ∀ b, (transform_openapi_to_robot env).result = .ok b → b = false := by
  have htr : transform_openapi_to_robot env = ⟨.ok false, []⟩
      ∨ ∃ e, transform_openapi_to_robot env = ⟨.error e, []⟩ := by
    unfold transform_openapi_to_robot
    cases hdir : env.dirOk with
    | false => left; simp
    | true =>
      cases htmp : env.templatesOk with
      | false => left; simp
      | true =>
        cases hin : env.inputExists with
        | false => left; simp
        | true =>
          cases hpk : env.parserOk with
          | false =>
            left
            simp [parse_openapi_spec]
          | true =>
            obtain ⟨e, he⟩ := walk_error_of_missing_opid (flattenOps env.spec) t hmem
              hnone ⟨[], [], none⟩
            right
            refine ⟨e, ?_⟩
            simp [parse_openapi_spec, he]
    
  rcases htr with h | ⟨e, h⟩ <;> rw [h]
  · exact ⟨rfl, fun b hb => by cases hb; rfl⟩
  · exact ⟨rfl, fun b hb => by cases hb⟩

/-- C4, witness: the theorem applied to a concrete run whose description
holds a single operation without `operationId`. -/
theorem c4_missing_operationid_aborts_witness :
    (transform_openapi_to_robot
      { dirOk := true, templatesOk := true, includesTemplate := "INC",
        headerTemplate := "HDR", footerTemplate := none,
        keywordBodyTemplate := "KB", keywordNoBodyTemplate := "KNB",
        inputExists := true, parserOk := true,
        spec := { paths := [("/p", [("get", {})])] },
        openapiFilename := "f.json", dt := "now", addExampleData := false,
        jiraKey := none, jiraTemplatesOk := true, jiraTestOutcomes := [],
        jiraExecOutcome := none, jiraLinkOk := true,
        excelSaveOk := true, includesOpenOk := true,
        robotOpenOk := true }).artifacts = []
    ∧ ∀ b, (transform_openapi_to_robot
      { dirOk := true, templatesOk := true, includesTemplate := "INC",
        headerTemplate := "HDR", footerTemplate := none,
        keywordBodyTemplate := "KB", keywordNoBodyTemplate := "KNB",
        inputExists := true, parserOk := true,
        spec := { paths := [("/p", [("get", {})])] },
        openapiFilename := "f.json", dt := "now", addExampleData := false,
        jiraKey := none, jiraTemplatesOk := true, jiraTestOutcomes := [],
        jiraExecOutcome := none, jiraLinkOk := true,
        excelSaveOk := true, includesOpenOk := true,
        robotOpenOk := true }).result = .ok b → b = false :=
  c4_missing_operationid_aborts _ ("/p", "get", ({} : Operation))
    (by decide) rfl

/-- A run in which every stage succeeds except that the final Robot
script file cannot be opened for writing. -/
def robot_sink_failure_env : TransformEnv :=
  { dirOk := true, templatesOk := true, includesTemplate := "INC",
    headerTemplate := "HDR", footerTemplate := none,
    keywordBodyTemplate := "KB", keywordNoBodyTemplate := "KNB",
    inputExists := true, parserOk := true,
    spec := { paths := [("/p", [("get",
      { operationId := some "op1", responses := some ["200"] })])] },
    openapiFilename := "f.json", dt := "now", addExampleData := false,
    jiraKey := none, jiraTemplatesOk := true, jiraTestOutcomes := [],
    jiraExecOutcome := none, jiraLinkOk := true,
    excelSaveOk := true, includesOpenOk := true,
    robotOpenOk := false }

/-- C2 (code bug): the claim that a failure of
`write_robot_framework_test_case_file` makes the whole run report failure
is violated by the code — the orchestrator assigns the writer's flag
(line 1271) but returns `True` unconditionally (line 1283).  On a run
where only the script sink fails, the writer reports failure, the script
artifact is missing, yet the run reports success. -/
theorem c2_sink_failure_not_terminal :
    (∀ (vars : List String) (tcs : List (ServiceKey × ServiceRecord))
       (fn dt hdr : String) (ftr : Option String) (kb knb : String),
      (write_robot_framework_test_case_file false vars tcs fn dt hdr ftr kb knb).1 = false)
    ∧ robot_sink_failure_env.robotOpenOk = false
    ∧ (transform_openapi_to_robot robot_sink_failure_env).result = .ok true
    ∧ (transform_openapi_to_robot robot_sink_failure_env).artifacts
        = [.excel, .includes] := by
  exact ⟨fun vars tcs fn dt hdr ftr kb knb => rfl, rfl, rfl, rfl⟩

/-- C1: the matrix header's variable columns (6 onward), the script's
shared argument string, and the walker's `all_service_variables` list
carry the same ordered variable list: the header places
`${v}` for the i-th variable in column `6 + i`, the argument string is
the three fixed tokens followed by `  ${v}` per variable in the same
order, and that list is exactly the case-insensitively ascending,
duplicate-free arrangement of every `properties` key of every
operation. -/
theorem c1_shared_variable_order (spec : OpenAPISpec) (out : ParseOut)
    (h : parse_openapi_spec true spec = .ok out) :
    ((write_excel_header out.all_service_variables).1).drop 6
      = (List.enumFrom start_column out.all_service_variables).map
          (fun iv => ⟨0, iv.1, .str ("$\x7b" ++ iv.2 ++ "\x7d"), .boldTestVariables⟩)
    ∧ my_arguments_string out.all_service_variables
      = "$\x7bAPI_CALL\x7d  $\x7bAPI_OPERATION\x7d  $\x7bEXPECTED_STATUS_CODE\x7d"
          ++ String.join (out.all_service_variables.map
              (fun v => "  " ++ ("$\x7b" ++ v ++ "\x7d")))
    ∧ List.Sorted ciLe out.all_service_variables
    ∧ out.all_service_variables.Nodup
    ∧ (∀ y, y ∈ out.all_service_variables ↔ y ∈ allPropertiesKeys spec) := by
  have h' : (match walk (flattenOps spec) ⟨[], [], none⟩ with
      | .error e => (.error e : Except PyError ParseOut)
      | .ok st =>
        .ok { success := true,
              servers := spec.servers.getD [],
              service_dictionary := st.dict,
              all_service_variables := List.insertionSort ciLe st.varset })
      = .ok out := h
  cases hw : walk (flattenOps spec) ⟨[], [], none⟩ with
  | error e => rw [hw] at h'; exact absurd h' (by simp)
  | ok st =>
    rw [hw] at h'
    simp only [Except.ok.injEq] at h'
    rw [← h']
    dsimp only
    refine ⟨?_, ?_, ?_, ?_, ?_⟩
    · exact (rfl :
        ((write_excel_header (List.insertionSort ciLe st.varset)).1).drop 6
          = varHeaderCells start_column (List.insertionSort ciLe st.varset)).trans
        (varHeaderCells_enumFrom (List.insertionSort ciLe st.varset) start_column)
    · exact foldl_append_eq_join (fun v => "  " ++ ("$\x7b" ++ v ++ "\x7d"))
        (List.insertionSort ciLe st.varset)
        "$\x7bAPI_CALL\x7d  $\x7bAPI_OPERATION\x7d  $\x7bEXPECTED_STATUS_CODE\x7d"
    · exact List.sorted_insertionSort ciLe st.varset
    · exact ((List.perm_insertionSort ciLe st.varset).symm).nodup
        (walk_varset_nodup (flattenOps spec) _ _ hw List.nodup_nil)
    · intro y
      rw [List.mem_insertionSort]
      have := walk_varset_mem (flattenOps spec) _ _ hw y
      simpa [allPropertiesKeys] using this

/-- A small concrete description with two operations sharing the
`properties` key `name`, used to witness the ordering invariant. -/
def c1_witness_spec : OpenAPISpec :=
  { paths := [
      ("/pets", [("post",
        { operationId := some "createPet",
          requestBody := some ⟨some ⟨some ⟨some
            { required := some ["name"],
              properties := some [("name", ({} : PropertySpec)),
                                  ("Age", ({} : PropertySpec))] }, none⟩⟩⟩,
          responses := some ["201"] })]),
      ("/pets/\x7bpetId\x7d", [("get",
        { operationId := some "getPet",
          requestBody := some ⟨some ⟨some ⟨some
            { required := none,
              properties := some [("name", ({} : PropertySpec)),
                                  ("breed", ({} : PropertySpec))] }, none⟩⟩⟩,
          responses := some ["200"] })])] }

/-- The walker's output on `c1_witness_spec`: the deduplicated variable
universe is `["Age", "breed", "name"]` (case-insensitive ascending). -/
def c1_witness_out : ParseOut :=
  { success := true,
    servers := [],
    service_dictionary := [(("createPet", "post", "/pets"),
        { properties := some [("name", ({} : PropertySpec)), ("Age", ({} : PropertySpec))],
          required := some ["name"],
          exampleVal := none,
          tags := PyTags.str "",
          summary := "",
          description := "",
          expected_status_code := EscVal.int 201 }),
      (("getPet", "get", "/pets/\x7bpetId\x7d"),
        { properties := some [("name", ({} : PropertySpec)), ("breed", ({} : PropertySpec))],
          required := none,
          exampleVal := none,
          tags := PyTags.str "",
          summary := "",
          description := "",
          expected_status_code := EscVal.int 200 })],
    all_service_variables := ["Age", "breed", "name"] }

/-- C1, witness: the ordering theorem applied to `c1_witness_spec`. -/
theorem c1_shared_variable_order_witness :
    ((write_excel_header c1_witness_out.all_service_variables).1).drop 6
      = (List.enumFrom start_column c1_witness_out.all_service_variables).map
          (fun iv => ⟨0, iv.1, .str ("$\x7b" ++ iv.2 ++ "\x7d"), .boldTestVariables⟩)
    ∧ my_arguments_string c1_witness_out.all_service_variables
      = "$\x7bAPI_CALL\x7d  $\x7bAPI_OPERATION\x7d  $\x7bEXPECTED_STATUS_CODE\x7d"
          ++ String.join (c1_witness_out.all_service_variables.map
              (fun v => "  " ++ ("$\x7b" ++ v ++ "\x7d")))
    ∧ List.Sorted ciLe c1_witness_out.all_service_variables
    ∧ c1_witness_out.all_service_variables.Nodup
    ∧ (∀ y, y ∈ c1_witness_out.all_service_variables
        ↔ y ∈ allPropertiesKeys c1_witness_spec) :=
  c1_shared_variable_order c1_witness_spec c1_witness_out rfl
